import Mathlib

/-!
Verification of the c2pa-c C++ wrapper layer.

This file contains a shallow embedding of
* the stream-adapter callbacks (`detail::stream_reader`, `detail::stream_writer`,
  `detail::stream_seeker`, `detail::stream_flusher`, `detail::stream_op` in
  `c2pa_internal.hpp`, and the `CppIStream` / `CppOStream` / `CppIOStream`
  callback tables of `c2pa_streams.cpp`),
* the signer callback trampoline (`signer_passthrough` in `c2pa_signer.cpp`),
* the handle-wrapper lifecycle protocol of `Settings`, `Context`,
  `Context::ContextBuilder`, `Reader`, `Builder` and `Signer`
  (`c2pa_settings.cpp`, `c2pa_context.cpp`, `c2pa_reader.cpp`,
  `c2pa_builder.cpp`, `c2pa_signer.cpp`),
followed by theorems settling the specified properties.

Modelling conventions: opaque foreign handles are `Option Nat` (`none` is a
null pointer).  The foreign engine is an external collaborator reached over a
C ABI, so the result of each foreign call appears as an explicit parameter of
the embedded operation; the embedding captures exactly the wrapper-side
control flow (validation order, pointer-nulling order, which exception is
raised, which handle is passed to the foreign call).  Native C++ streams are
modelled by the `Ios` state record below, following the `std::basic_istream`
/ `std::basic_ostream` semantics of the operations the wrapper uses
(`read`, `write`, `seekg`, `seekp`, `tellg`, `tellp`, `clear`, `gcount`,
`fail`, `bad`, `eof`).
-/

namespace C2paCpp

/-- Error categories signalled by the stream callbacks (`enum class
StreamError` in `c2pa.hpp`): `InvalidArgument` is EINVAL, `IoError` is EIO,
`NoBufferSpace` is ENOBUFS.  `stream_error_return e` in the C++ source sets
`errno` from the category and returns the sentinel -1; in the embedding a
callback result carries the sentinel in `ret` and the category written to
`errno` (if any) in `errnoSet`. -/
inductive StreamError where
  | InvalidArgument
  | IoError
  | NoBufferSpace
deriving DecidableEq

/-- Seek modes of the C ABI (`C2paSeekMode` in `c2pa.h`). -/
inductive C2paSeekMode where
  | Start
  | Current
  | End
deriving DecidableEq

/-- `std::ios_base::seekdir`; the `end` direction is spelt `sEnd`. -/
inductive SeekDir where
  | beg
  | cur
  | sEnd
deriving DecidableEq

/-- `detail::whence_to_seekdir` (`c2pa_internal.hpp`): maps the C ABI seek
mode to the iostream seek direction; the C++ `default` branch also returns
`beg` but is unreachable for the three-valued enum. -/
def whence_to_seekdir : C2paSeekMode → SeekDir
  | .Start => .beg
  | .Current => .cur
  | .End => .sEnd

/-- State of a native C++ stream as observed through the operations the
wrapper uses.  `gpos` / `ppos` are the get and put positions, `len` the
number of bytes in the underlying sequence, `gcountv` the value reported by
`gcount()`.  `hwReadError` models a streambuf whose next extraction fails
with a hard (non end-of-file) error, which `std::istream::read` surfaces by
setting `badbit`. -/
structure Ios where
  eofbit : Bool
  failbit : Bool
  badbit : Bool
  gpos : Nat
  ppos : Nat
  len : Nat
  gcountv : Nat
  hwReadError : Bool
deriving DecidableEq

/-- `std::ios::bad()`. -/
def Ios.bad (s : Ios) : Bool := s.badbit

/-- `std::ios::fail()`: true when `failbit` or `badbit` is set. -/
def Ios.fail (s : Ios) : Bool := s.failbit || s.badbit

/-- `std::ios::eof()`. -/
def Ios.eof (s : Ios) : Bool := s.eofbit

/-- `std::ios::good()`: no state flag set. -/
def Ios.good (s : Ios) : Bool := !s.eofbit && !s.failbit && !s.badbit

/-- `std::ios::clear()` with the default `goodbit` argument: resets all
state flags. -/
def Ios.clear (s : Ios) : Ios :=
  { s with eofbit := false, failbit := false, badbit := false }

/-- `std::istream::read(buf, n)` (unformatted input).  If the stream is not
good, the sentry fails: `failbit` is set and `gcount()` becomes 0.  If the
streambuf signals a hard error, `badbit` (and hence `failbit` through
`fail()`) is set with nothing extracted.  Otherwise up to `n` bytes are
extracted; reaching end-of-file before `n` bytes sets `eofbit` and
`failbit`, and `gcount()` reports the bytes actually extracted. -/
def Ios.read (s : Ios) (n : Nat) : Ios :=
  if !s.good then { s with failbit := true, gcountv := 0 }
  else if s.hwReadError then { s with badbit := true, failbit := true, gcountv := 0 }
  else
    let avail := s.len - s.gpos
    let g := min n avail
    if g < n then
      { s with gpos := s.gpos + g, gcountv := g, eofbit := true, failbit := true }
    else
      { s with gpos := s.gpos + g, gcountv := g }

/-- Base of a get-position seek for each direction. -/
def seekBaseG (s : Ios) : SeekDir → Int
  | .beg => 0
  | .cur => s.gpos
  | .sEnd => s.len

/-- Base of a put-position seek for each direction. -/
def seekBaseP (s : Ios) : SeekDir → Int
  | .beg => 0
  | .cur => s.ppos
  | .sEnd => s.len

/-- `std::istream::seekg(off, dir)`: first clears `eofbit`; if the stream
then still fails, the sentry sets `failbit` and nothing moves; otherwise the
target position is computed from the base and offset, a negative target
makes the underlying `pubseekoff` fail (`failbit`), and a valid target
becomes the new get position. -/
def Ios.seekg (s : Ios) (off : Int) (dir : SeekDir) : Ios :=
  let s1 : Ios := { s with eofbit := false }
  if s1.fail then { s1 with failbit := true }
  else
    let t : Int := seekBaseG s1 dir + off
    if t < 0 then { s1 with failbit := true }
    else { s1 with gpos := t.toNat }

/-- `std::ostream::seekp(off, dir)`: a failed stream ignores the request;
otherwise a negative target sets `failbit` and a valid target becomes the
new put position. -/
def Ios.seekp (s : Ios) (off : Int) (dir : SeekDir) : Ios :=
  if s.fail then s
  else
    let t : Int := seekBaseP s dir + off
    if t < 0 then { s with failbit := true }
    else { s with ppos := t.toNat }

/-- `std::istream::tellg()`: -1 when the stream fails, else the get
position. -/
def Ios.tellg (s : Ios) : Int := if s.fail then -1 else s.gpos

/-- `std::ostream::tellp()`: -1 when the stream fails, else the put
position. -/
def Ios.tellp (s : Ios) : Int := if s.fail then -1 else s.ppos

/-- `std::ostream::write(buf, n)` (unformatted output): if the stream is not
good the sentry fails and nothing is written; otherwise `max n 0` bytes are
inserted at the put position (an always-accepting sink: insertion itself
does not fail in the model). -/
def Ios.write (s : Ios) (n : Int) : Ios :=
  if !s.good then s
  else
    let k := n.toNat
    { s with ppos := s.ppos + k, len := max s.len (s.ppos + k) }

/-- `std::ostream::flush()`: succeeds without changing the model state. -/
def Ios.flush (s : Ios) : Ios := s

/-- `detail::is_stream_usable` (`c2pa_internal.hpp`): the context pointer is
non-null and the stream is not bad. -/
def is_stream_usable (s : Option Ios) : Bool :=
  match s with
  | none => false
  | some s => !s.bad

/-- Result of one stream callback invocation: the returned `intptr_t`, the
error category written to `errno` (if any), the stream reachable through the
context pointer afterwards, and whether any native stream operation
(`clear` / `read` / `write` / `seek` / `flush`) was invoked on it. -/
structure CbOut where
  ret : Int
  errnoSet : Option StreamError
  stream : Option Ios
  touched : Bool
deriving DecidableEq

/-- The stream type a `detail` template was instantiated at:
`std::istream`, `std::ostream` or `std::iostream`. -/
inductive StreamKind where
  | ist
  | ost
  | iost
deriving DecidableEq

/-- `detail::StreamSeekTraits<Stream>::seek`: `istream` seeks the get
position, `ostream` the put position, `iostream` seeks both with the same
offset and direction. -/
def seekTraits : StreamKind → Ios → Int → SeekDir → Ios
  | .ist, s, off, dir => s.seekg off dir
  | .ost, s, off, dir => s.seekp off dir
  | .iost, s, off, dir => (s.seekg off dir).seekp off dir

/-- `detail::StreamSeekTraits<Stream>::tell`: `istream` reports `tellg`,
`ostream` and `iostream` report `tellp`. -/
def tellTraits : StreamKind → Ios → Int
  | .ist, s => s.tellg
  | .ost, s => s.tellp
  | .iost, s => s.tellp

/-- `detail::stream_seeker<Stream>` (`c2pa_internal.hpp`): reject an unusable
stream with EIO; otherwise clear the state flags, seek via the traits, map a
failed seek to EINVAL, a bad stream to EIO, and report the new position (a
negative reported position is EIO). -/
def stream_seeker (k : StreamKind) (context : Option Ios) (offset : Int)
    (whence : C2paSeekMode) : CbOut :=
  match context with
  | none => ⟨-1, some .IoError, none, false⟩
  | some s =>
    if !is_stream_usable (some s) then ⟨-1, some .IoError, some s, false⟩
    else
      let dir := whence_to_seekdir whence
      let s1 := s.clear
      let s2 := seekTraits k s1 offset dir
      if s2.fail then ⟨-1, some .InvalidArgument, some s2, true⟩
      else if s2.bad then ⟨-1, some .IoError, some s2, true⟩
      else
        let pos := tellTraits k s2
        if pos < 0 then ⟨-1, some .IoError, some s2, true⟩
        else ⟨pos, none, some s2, true⟩

/-- `detail::stream_reader<Stream>` (`c2pa_internal.hpp`): null context or
buffer and negative sizes are EINVAL, a zero size returns 0 immediately, an
unusable stream is EIO; after the native read, a failure that is not
end-of-file is EINVAL, a bad stream is EIO, and otherwise `gcount()` is
returned.  The `buffer` flag records whether the byte-buffer pointer is
non-null. -/
def stream_reader (context : Option Ios) (buffer : Bool) (size : Int) : CbOut :=
  match context with
  | none => ⟨-1, some .InvalidArgument, none, false⟩
  | some s =>
    if !buffer then ⟨-1, some .InvalidArgument, some s, false⟩
    else if size < 0 then ⟨-1, some .InvalidArgument, some s, false⟩
    else if size = 0 then ⟨0, none, some s, false⟩
    else if !is_stream_usable (some s) then ⟨-1, some .IoError, some s, false⟩
    else
      let s1 := s.read size.toNat
      if s1.fail && !s1.eof then ⟨-1, some .InvalidArgument, some s1, true⟩
      else if s1.bad then ⟨-1, some .IoError, some s1, true⟩
      else ⟨(s1.gcountv : Int), none, some s1, true⟩

/-- `detail::stream_op<Stream>` (`c2pa_internal.hpp`): reject an unusable
stream with EIO, run the operation, then map a failed stream to EINVAL and a
bad stream to EIO, else return the operation's result. -/
def stream_op (context : Option Ios) (op : Ios → Ios × Int) : CbOut :=
  match context with
  | none => ⟨-1, some .IoError, none, false⟩
  | some s =>
    if !is_stream_usable (some s) then ⟨-1, some .IoError, some s, false⟩
    else
      let r := op s
      if r.1.fail then ⟨-1, some .InvalidArgument, some r.1, true⟩
      else if r.1.bad then ⟨-1, some .IoError, some r.1, true⟩
      else ⟨r.2, none, some r.1, true⟩

/-- `detail::stream_writer<Stream>` (`c2pa_internal.hpp`): delegates to
`stream_op` with `s.write(buffer, size); return size`.  Note that the C++
source performs no null-buffer or negative-size validation; the buffer
pointer is handed straight to the native write, so the `buffer` flag is
unused here exactly as in the source. -/
def stream_writer (context : Option Ios) (buffer : Bool) (size : Int) : CbOut :=
  stream_op context (fun s => (s.write size, size))

/-- `detail::stream_flusher<Stream>` (`c2pa_internal.hpp`): delegates to
`stream_op` with `s.flush(); return 0`. -/
def stream_flusher (context : Option Ios) : CbOut :=
  stream_op context (fun s => (s.flush, 0))

/-- `CppIStream::reader` (`c2pa_streams.cpp`): `detail::stream_reader`
instantiated at `std::istream`. -/
def CppIStream.reader (context : Option Ios) (buffer : Bool) (size : Int) : CbOut :=
  stream_reader context buffer size

/-- `CppIStream::seeker`: `detail::stream_seeker<std::istream>`. -/
def CppIStream.seeker (context : Option Ios) (offset : Int) (whence : C2paSeekMode) : CbOut :=
  stream_seeker .ist context offset whence

/-- `CppIStream::writer` (`c2pa_streams.cpp`): writing on the read-only
adapter discards all arguments and returns
`stream_error_return(StreamError::InvalidArgument)` without touching the
wrapped stream. -/
def CppIStream.writer (context : Option Ios) (buffer : Bool) (size : Int) : CbOut :=
  ⟨-1, some .InvalidArgument, context, false⟩

/-- `CppIStream::flusher` (`c2pa_streams.cpp`): flushing on the read-only
adapter returns `stream_error_return(StreamError::InvalidArgument)` without
touching the wrapped stream. -/
def CppIStream.flusher (context : Option Ios) : CbOut :=
  ⟨-1, some .InvalidArgument, context, false⟩

/-- `CppOStream::reader`: reading on the write-only adapter is EINVAL. -/
def CppOStream.reader (context : Option Ios) (buffer : Bool) (size : Int) : CbOut :=
  ⟨-1, some .InvalidArgument, context, false⟩

/-- `CppOStream::seeker`: `detail::stream_seeker<std::ostream>`. -/
def CppOStream.seeker (context : Option Ios) (offset : Int) (whence : C2paSeekMode) : CbOut :=
  stream_seeker .ost context offset whence

/-- `CppOStream::writer`: `detail::stream_writer<std::ostream>`. -/
def CppOStream.writer (context : Option Ios) (buffer : Bool) (size : Int) : CbOut :=
  stream_writer context buffer size

/-- `CppOStream::flusher`: `detail::stream_flusher<std::ostream>`. -/
def CppOStream.flusher (context : Option Ios) : CbOut :=
  stream_flusher context

/-- `CppIOStream::reader`: `detail::stream_reader<std::iostream>`. -/
def CppIOStream.reader (context : Option Ios) (buffer : Bool) (size : Int) : CbOut :=
  stream_reader context buffer size

/-- `CppIOStream::seeker`: `detail::stream_seeker<std::iostream>`. -/
def CppIOStream.seeker (context : Option Ios) (offset : Int) (whence : C2paSeekMode) : CbOut :=
  stream_seeker .iost context offset whence

/-- `CppIOStream::writer`: `detail::stream_writer<std::iostream>`. -/
def CppIOStream.writer (context : Option Ios) (buffer : Bool) (size : Int) : CbOut :=
  stream_writer context buffer size

/-- `CppIOStream::flusher`: `detail::stream_flusher<std::iostream>`. -/
def CppIOStream.flusher (context : Option Ios) : CbOut :=
  stream_flusher context

/-- Result of one `signer_passthrough` invocation: the returned `intptr_t`,
the error category written to `errno` (if any), and the bytes copied into
the caller's signature buffer (if any). -/
structure SignOut where
  ret : Int
  errnoSet : Option StreamError
  written : Option (List Nat)
deriving DecidableEq

/-- `signer_passthrough` (`c2pa_signer.cpp`): the C callback bridging a C++
`SignerFunc` to the foreign signer.  Null `data` or `signature` pointers are
EINVAL; the user callback runs inside a try block, a thrown exception (of
any type) is caught and mapped to `OperationResult::Error` (-1, no `errno`
write); a returned signature longer than `sig_max_len` is ENOBUFS; otherwise
the signature is copied out and its length returned.  The callback models
user code returning bytes or throwing (`Except.error`); the byte count the C
signature passes separately is carried by the list itself. -/
def signer_passthrough (callback : List Nat → Except String (List Nat))
    (data : Option (List Nat)) (signature : Bool) (sig_max_len : Nat) : SignOut :=
  match data with
  | none => ⟨-1, some .InvalidArgument, none⟩
  | some d =>
    if !signature then ⟨-1, some .InvalidArgument, none⟩
    else
      match callback d with
      | .error _ => ⟨-1, none, none⟩
      | .ok sig =>
        if sig.length > sig_max_len then ⟨-1, some .NoBufferSpace, none⟩
        else ⟨(sig.length : Int), none, some sig⟩

/-- Exception flavours thrown by the wrapper: `c2paForeign` is
`C2paException()` (message fetched from `c2pa_error()`), `c2paLocal` is
`C2paException(message)` with a locally authored message, `systemError` is
`std::system_error`, `runtimeError` is `std::runtime_error`, and
`filesystemError` is `std::filesystem::filesystem_error` as thrown by the
throwing overloads of `std::filesystem::exists` and
`std::filesystem::create_directories`. -/
inductive CErr where
  | c2paForeign
  | c2paLocal (msg : String)
  | systemError (msg : String)
  | runtimeError (msg : String)
  | filesystemError (msg : String)
deriving DecidableEq

/-- Whether a thrown exception is (a subobject of) `c2pa::C2paException`. -/
def CErr.isC2paException : CErr → Bool
  | .c2paForeign => true
  | .c2paLocal _ => true
  | .systemError _ => false
  | .runtimeError _ => false
  | .filesystemError _ => false

/-- Message of `Settings::set` / `Settings::update` on an invalid object. -/
def msgSettingsInvalid : String := "Settings object is invalid"

/-- Message of the `ContextBuilder` operations on a moved-from builder. -/
def msgBuilderMoved : String := "ContextBuilder is invalid (moved from)"

/-- Message of a failed default `Settings` construction. -/
def msgSettingsCreate : String := "Failed to create Settings"

/-- Message of a failed default `Context` construction. -/
def msgContextCreate : String := "Failed to create Context"

/-- Message of a failed `ContextBuilder` construction. -/
def msgContextBuilderCreate : String := "Failed to create Context builder"

/-- Message of a failed `CppIStream` construction. -/
def msgIStreamCreate : String := "Failed to create input stream wrapper: is stream open and valid?"

/-- Message of `Builder` / `Reader` construction from an invalid provider. -/
def msgProviderInvalid : String := "Invalid Context provider IContextProvider"

/-- Message of a failed `c2pa_reader_from_context` call. -/
def msgReaderCreate : String := "Failed to create reader from context"

/-- Message of the `std::runtime_error` thrown by the path overload of
`Builder::sign` when the destination file cannot be opened. -/
def msgDestOpen : String := "Failed to open destination file"

/-- Stand-in for the library-generated message of the
`std::filesystem::filesystem_error` thrown by `std::filesystem::exists` or
`std::filesystem::create_directories` in the path overload of
`Builder::sign`. -/
def msgCreateDirs : String := "filesystem error in exists or create_directories"

/-- Message of the `std::system_error` thrown by the path constructors of
`Reader` when the source file cannot be opened. -/
def msgFileOpen : String := "Failed to open file"

/-- `Settings::is_valid` (`c2pa_settings.cpp`): the object holds a non-null
`C2paSettings*`. -/
def Settings.is_valid (p : Option Nat) : Bool := p.isSome

/-- `Settings` move construction (`c2pa_settings.cpp`): the destination
takes the handle via `std::exchange`, the source is left null.  The result
pair is (destination handle, source handle afterwards). -/
def Settings.moveFrom (a : Option Nat) : Option Nat × Option Nat := (a, none)

/-- `Settings::set` (`c2pa_settings.cpp`): a null handle raises the local
"Settings object is invalid" exception before any foreign call; otherwise
`c2pa_settings_set_value` is issued on the handle (its integer status is the
parameter) and a non-zero status raises `C2paException()`.  The second
component lists the handles passed to foreign calls. -/
def Settings.set (p : Option Nat) (status : Int) :
    Except CErr Unit × List (Option Nat) :=
  match p with
  | none => (.error (.c2paLocal msgSettingsInvalid), [])
  | some h => (if status ≠ 0 then .error .c2paForeign else .ok (), [some h])

/-- `Settings::update` (`c2pa_settings.cpp`): same discipline as
`Settings::set` with `c2pa_settings_update_from_string`. -/
def Settings.update (p : Option Nat) (status : Int) :
    Except CErr Unit × List (Option Nat) :=
  match p with
  | none => (.error (.c2paLocal msgSettingsInvalid), [])
  | some h => (if status ≠ 0 then .error .c2paForeign else .ok (), [some h])

/-- Default `Settings` constructor (`c2pa_settings.cpp`): stores the result
of `c2pa_settings_new` and raises when it is null. -/
def Settings.ctor_default (foreignResult : Option Nat) : Except CErr (Option Nat) :=
  match foreignResult with
  | none => .error (.c2paLocal msgSettingsCreate)
  | some h => .ok (some h)

/-- `Context::is_valid` (`c2pa_context.cpp`): non-null `C2paContext*`. -/
def Context.is_valid (c : Option Nat) : Bool := c.isSome

/-- `Context` move construction (`c2pa_context.cpp`): destination takes the
handle, source is nulled. -/
def Context.moveFrom (a : Option Nat) : Option Nat × Option Nat := (a, none)

/-- Default `Context` constructor (`c2pa_context.cpp`): stores the result of
`c2pa_context_new` and raises when it is null. -/
def Context.ctor_default (foreignResult : Option Nat) : Except CErr (Option Nat) :=
  match foreignResult with
  | none => .error (.c2paLocal msgContextCreate)
  | some h => .ok (some h)

/-- `Context::ContextBuilder::is_valid` (`c2pa_context.cpp`). -/
def ContextBuilder.is_valid (cb : Option Nat) : Bool := cb.isSome

/-- `ContextBuilder` move construction (`c2pa_context.cpp`): handle moved
via `std::exchange`, source nulled. -/
def ContextBuilder.moveFrom (a : Option Nat) : Option Nat × Option Nat := (a, none)

/-- `ContextBuilder` constructor (`c2pa_context.cpp`): stores the result of
`c2pa_context_builder_new` and raises when it is null. -/
def ContextBuilder.ctor (foreignResult : Option Nat) : Except CErr (Option Nat) :=
  match foreignResult with
  | none => .error (.c2paLocal msgContextBuilderCreate)
  | some h => .ok (some h)

/-- `ContextBuilder::with_settings` (`c2pa_context.cpp`): a moved-from
builder raises locally; an invalid `Settings` raises locally; otherwise
`c2pa_context_builder_set_settings` is issued on the builder handle and a
non-zero status raises `C2paException()`. -/
def ContextBuilder.with_settings (cb : Option Nat) (settingsValid : Bool)
    (status : Int) : Except CErr Unit × List (Option Nat) :=
  match cb with
  | none => (.error (.c2paLocal msgBuilderMoved), [])
  | some h =>
    if !settingsValid then (.error (.c2paLocal msgSettingsInvalid), [])
    else (if status ≠ 0 then .error .c2paForeign else .ok (), [some h])

/-- `CppIStream` constructor (`c2pa.hpp`): stores the result of
`c2pa_create_stream` and raises when it is null. -/
def CppIStream.ctor (foreignResult : Option Nat) : Except CErr (Option Nat) :=
  match foreignResult with
  | none => .error (.c2paLocal msgIStreamCreate)
  | some h => .ok (some h)

/-- `Signer` constructor from a callback (`c2pa_signer.cpp`): the source
stores the result of `c2pa_signer_create` into the `signer` field with no
null check and never throws, so the constructed object may hold a null
handle. -/
def Signer.ctor_callback (foreignResult : Option Nat) : Except CErr (Option Nat) :=
  .ok foreignResult

/-- `Signer` constructor from credentials (`c2pa_signer.cpp`): stores the
result of `c2pa_signer_from_info` with no null check and never throws. -/
def Signer.ctor_info (foreignResult : Option Nat) : Except CErr (Option Nat) :=
  .ok foreignResult

/-- `Signer` move construction (`c2pa.hpp`): handle moved, source nulled. -/
def Signer.moveFrom (a : Option Nat) : Option Nat × Option Nat := (a, none)

/-- `Signer::reserve_size` (`c2pa_signer.cpp`): calls
`c2pa_signer_reserve_size(signer)` with whatever handle the object holds —
there is no null check before the foreign call. -/
def Signer.reserve_size (sg : Option Nat) (foreignRet : Nat) :
    Nat × List (Option Nat) :=
  (foreignRet, [sg])

/-- `Builder` move construction (`c2pa.hpp`): handle moved, source nulled. -/
def Builder.moveFrom (a : Option Nat) : Option Nat × Option Nat := (a, none)

/-- `Builder::set_remote_url` (`c2pa_builder.cpp`): issues
`c2pa_builder_set_remote_url(builder, url)` directly on whatever handle the
object holds — there is no validity check before the foreign call — and
raises `C2paException()` only when the returned status is negative. -/
def Builder.set_remote_url (b : Option Nat) (status : Int) :
    Except CErr Unit × List (Option Nat) :=
  (if status < 0 then .error .c2paForeign else .ok (), [b])

/-- `Reader` move construction (`c2pa.hpp`): handle and the two stream
members are moved, the source's reader handle is nulled. -/
def Reader.moveFrom (a : Option Nat) : Option Nat × Option Nat := (a, none)

/-- `Reader::is_embedded` (`c2pa.hpp`): forwards the stored handle straight
into `c2pa_reader_is_embedded` with no validity check. -/
def Reader.is_embedded (r : Option Nat) (foreignRet : Bool) :
    Bool × List (Option Nat) :=
  (foreignRet, [r])

/-- Outcome of a consuming foreign call site: whether an exception was
thrown, the wrapper's handle field when control leaves the member function
(at the throw, or at the normal return), and the handle that was passed to —
and hence consumed by — the foreign call (if the call was issued at all). -/
structure ConsumeOut where
  threw : Bool
  field : Option Nat
  consumed : Option Nat
deriving DecidableEq

/-- The destructor releases whatever non-null handle the field holds; if
that same handle was already consumed by the foreign call, destroying the
object performs a second release of it. -/
def ConsumeOut.destructorDoubleFree (o : ConsumeOut) : Bool :=
  o.field.isSome && o.field == o.consumed

/-- `Builder::with_definition` (`c2pa_builder.cpp`): the consuming call
`c2pa_builder_with_definition(builder, json)` is issued on the current
handle, the field is nulled immediately afterwards (before any check), a
null result raises, otherwise the replacement handle is stored. -/
def Builder.with_definition_call (b : Option Nat) (foreignResult : Option Nat) :
    ConsumeOut :=
  ⟨foreignResult.isNone, foreignResult, b⟩

/-- `Builder::with_archive` (`c2pa_builder.cpp`): same null-then-replace
discipline around the consuming `c2pa_builder_with_archive`. -/
def Builder.with_archive_call (b : Option Nat) (foreignResult : Option Nat) :
    ConsumeOut :=
  ⟨foreignResult.isNone, foreignResult, b⟩

/-- The attach-stream step of the `Reader` constructors
(`c2pa_reader.cpp`): the consuming `c2pa_reader_with_stream` is issued on
the fresh reader handle, the field is nulled immediately afterwards, a null
result raises, otherwise the replacement handle is stored. -/
def Reader.with_stream_call (r : Option Nat) (foreignResult : Option Nat) :
    ConsumeOut :=
  ⟨foreignResult.isNone, foreignResult, r⟩

/-- `Context::ContextBuilder::create_context` (`c2pa_context.cpp`): a
moved-from builder raises before any foreign call; otherwise the consuming
`c2pa_context_builder_build(context_builder)` is issued, a null result
raises — with the field still holding the consumed handle, because the
source nulls the field only after the check — and on success the field is
nulled and the new context returned. -/
def ContextBuilder.create_context_call (cb : Option Nat)
    (foreignResult : Option Nat) : ConsumeOut :=
  match cb with
  | none => ⟨true, none, none⟩
  | some h =>
    match foreignResult with
    | none => ⟨true, some h, some h⟩
    | some _ => ⟨false, none, some h⟩

/-- Path overload of `Builder::sign` (`c2pa_builder.cpp`): the source file
is opened through `detail::open_file_binary` which raises `C2paException`
on failure; the destination directory is then prepared with the throwing
overloads of `std::filesystem::exists` and
`std::filesystem::create_directories`, either of which may raise
`std::filesystem::filesystem_error` (`dirPrepOk` false); next the
destination `std::fstream` failing to open raises `std::runtime_error`;
otherwise the stream overload runs and a null manifest-bytes result from
the foreign sign call raises `C2paException()` from
`detail::to_byte_vector`. -/
def Builder.sign_path (sourceOpens dirPrepOk destOpens : Bool)
    (signResult : Option (List Nat)) : Except CErr (List Nat) :=
  if !sourceOpens then .error (.c2paLocal msgFileOpen)
  else if !dirPrepOk then .error (.filesystemError msgCreateDirs)
  else if !destOpens then .error (.runtimeError msgDestOpen)
  else
    match signResult with
    | none => .error .c2paForeign
    | some bs => .ok bs

/-- Path constructor of `Reader` (`c2pa_reader.cpp`): an invalid context
provider raises `C2paException` locally; a null result from
`c2pa_reader_from_context` raises `C2paException` locally; a source file
that cannot be opened raises `std::system_error`; a null result from the
consuming `c2pa_reader_with_stream` raises `C2paException()`. -/
def Reader.ctor_path (ctxValid : Bool) (fromCtxResult : Option Nat)
    (fileOpens : Bool) (withStreamResult : Option Nat) :
    Except CErr (Option Nat) :=
  if !ctxValid then .error (.c2paLocal msgProviderInvalid)
  else
    match fromCtxResult with
    | none => .error (.c2paLocal msgReaderCreate)
    | some _ =>
      if !fileOpens then .error (.systemError msgFileOpen)
      else
        match withStreamResult with
        | none => .error .c2paForeign
        | some u => .ok (some u)

/-- Condition under which the embedded `stream_reader` hard-fails after
actually attempting the native read: a pending failure flag without the
end-of-file flag (the read sentry then fails with `eof()` false), or a good
stream whose streambuf signals a hard non-eof error. -/
def readHardFail (s : Ios) : Bool :=
  (s.failbit && !s.eofbit) || (s.good && s.hwReadError)

/-- Whether the seek target(s) of a `stream_seeker` request are valid
(non-negative) for the given stream kind. -/
def seekTargetOk (k : StreamKind) (s : Ios) (off : Int) (dir : SeekDir) : Bool :=
  match k with
  | .ist => decide (0 ≤ seekBaseG s dir + off)
  | .ost => decide (0 ≤ seekBaseP s dir + off)
  | .iost => decide (0 ≤ seekBaseG s dir + off) && decide (0 ≤ seekBaseP s dir + off)

/-- The absolute position a successful `stream_seeker` reports: the new get
position for `std::istream`, the new put position for `std::ostream` and
`std::iostream` (whose traits report `tellp`). -/
def seekNewPos (k : StreamKind) (s : Ios) (off : Int) (dir : SeekDir) : Int :=
  match k with
  | .ist => seekBaseG s dir + off
  | .ost => seekBaseP s dir + off
  | .iost => seekBaseP s dir + off

/-- Message used by the example throwing signer callback in witnesses. -/
def msgBoom : String := "signer callback threw"

/-- A stream in a bad (hard-error) state with an unusable streambuf. -/
theorem seeker_bad (k : StreamKind) (s : Ios) (off : Int) (w : C2paSeekMode)
    (hb : s.badbit = true) :
    stream_seeker k (some s) off w = ⟨-1, some .IoError, some s, false⟩ := by
  simp [stream_seeker, is_stream_usable, Ios.bad, hb]

/-- Seeking to a negative absolute position from `Start` on a usable stream
fails with EINVAL for every stream kind. -/
theorem seeker_neg_start (k : StreamKind) (s : Ios) (off : Int)
    (hb : s.badbit = false) (hoff : off < 0) :
    (stream_seeker k (some s) off .Start).ret = -1 ∧
    (stream_seeker k (some s) off .Start).errnoSet = some .InvalidArgument := by
  cases k <;>
    simp [stream_seeker, is_stream_usable, Ios.bad, Ios.clear, whence_to_seekdir,
      seekTraits, tellTraits, Ios.seekg, Ios.seekp, Ios.fail, seekBaseG, seekBaseP,
      hb, hoff]

/-- `seekg` on a cleared stream with a valid target: the get position moves
to the target and no flag is raised. -/
theorem clear_seekg_ok (s : Ios) (off : Int) (dir : SeekDir)
    (hok : 0 ≤ seekBaseG s dir + off) :
    Ios.seekg s.clear off dir =
      { s with eofbit := false, failbit := false, badbit := false,
               gpos := (seekBaseG s dir + off).toNat } := by
  have hbase : ∀ (eo fa ba : Bool) (gc2 : Nat) (hw2 : Bool),
      seekBaseG ⟨eo, fa, ba, s.gpos, s.ppos, s.len, gc2, hw2⟩ dir = seekBaseG s dir := by
    intro _ _ _ _ _
    cases dir <;> rfl
  simp [Ios.seekg, Ios.fail, Ios.clear, hbase, not_lt.2 hok]

/-- `seekp` on a cleared stream with a valid target: the put position moves
to the target and no flag is raised. -/
theorem clear_seekp_ok (s : Ios) (off : Int) (dir : SeekDir)
    (hok : 0 ≤ seekBaseP s dir + off) :
    Ios.seekp s.clear off dir =
      { s with eofbit := false, failbit := false, badbit := false,
               ppos := (seekBaseP s dir + off).toNat } := by
  have hbase : ∀ (eo fa ba : Bool) (gc2 : Nat) (hw2 : Bool),
      seekBaseP ⟨eo, fa, ba, s.gpos, s.ppos, s.len, gc2, hw2⟩ dir = seekBaseP s dir := by
    intro _ _ _ _ _
    cases dir <;> rfl
  simp [Ios.seekp, Ios.fail, Ios.clear, hbase, not_lt.2 hok]

/-- `seekg` then `seekp` on a cleared stream, both targets valid: both
positions move and no flag is raised. -/
theorem clear_seekg_seekp_ok (s : Ios) (off : Int) (dir : SeekDir)
    (hg : 0 ≤ seekBaseG s dir + off) (hp : 0 ≤ seekBaseP s dir + off) :
    Ios.seekp (Ios.seekg s.clear off dir) off dir =
      { s with eofbit := false, failbit := false, badbit := false,
               gpos := (seekBaseG s dir + off).toNat,
               ppos := (seekBaseP s dir + off).toNat } := by
  rw [clear_seekg_ok s off dir hg]
  have hbase : ∀ (gp2 : Nat),
      seekBaseP ⟨false, false, false, gp2, s.ppos, s.len, s.gcountv, s.hwReadError⟩ dir
        = seekBaseP s dir := by
    intro _
    cases dir <;> rfl
  simp [Ios.seekp, Ios.fail, hbase, not_lt.2 hp]

/-- Seeking a usable stream to a valid target succeeds and reports the new
absolute position, for every stream kind, direction and prior soft-failure
flags. -/
theorem seeker_success (k : StreamKind) (s : Ios) (off : Int) (w : C2paSeekMode)
    (hb : s.badbit = false)
    (hok : seekTargetOk k s off (whence_to_seekdir w) = true) :
    (stream_seeker k (some s) off w).ret = seekNewPos k s off (whence_to_seekdir w) ∧
    (stream_seeker k (some s) off w).errnoSet = none := by
  cases k
  · simp only [seekTargetOk, decide_eq_true_eq] at hok
    simp [stream_seeker, is_stream_usable, Ios.bad, hb, seekTraits, tellTraits,
      clear_seekg_ok s off _ hok, Ios.fail, Ios.tellg, seekNewPos,
      Int.toNat_of_nonneg hok, not_lt.2 hok]
  · simp only [seekTargetOk, decide_eq_true_eq] at hok
    simp [stream_seeker, is_stream_usable, Ios.bad, hb, seekTraits, tellTraits,
      clear_seekp_ok s off _ hok, Ios.fail, Ios.tellp, seekNewPos,
      Int.toNat_of_nonneg hok, not_lt.2 hok]
  · simp only [seekTargetOk, Bool.and_eq_true, decide_eq_true_eq] at hok
    obtain ⟨hg, hp⟩ := hok
    simp [stream_seeker, is_stream_usable, Ios.bad, hb, seekTraits, tellTraits,
      clear_seekg_seekp_ok s off _ hg hp, Ios.fail, Ios.tellp, seekNewPos,
      Int.toNat_of_nonneg hp, not_lt.2 hp]

/-- For a usable stream the seeker behaves exactly as it would on the same
stream with all state flags already cleared: the flags are cleared before
the native seek is attempted. -/
theorem seeker_clear_equiv (k : StreamKind) (s : Ios) (off : Int) (w : C2paSeekMode)
    (hb : s.badbit = false) :
    stream_seeker k (some s) off w = stream_seeker k (some s.clear) off w := by
  simp [stream_seeker, is_stream_usable, Ios.bad, Ios.clear, hb]

/-- A positive-size read returns the sentinel -1 exactly when the stream is
bad or the attempted read hard-fails without reaching end-of-file. -/
theorem reader_ret_neg_iff (s : Ios) (size : Int) (hs : 0 < size) :
    ((stream_reader (some s) true size).ret = -1 ↔
      s.badbit = true ∨ readHardFail s = true) := by
  have h1 : ¬ size < 0 := by omega
  have h2 : ¬ size = 0 := by omega
  rcases s with ⟨eo, fa, ba, gp, pp, ln, gc, hw⟩
  cases eo <;> cases fa <;> cases ba <;> cases hw <;>
    simp [stream_reader, is_stream_usable, Ios.bad, Ios.read, Ios.good, Ios.fail,
      Ios.eof, readHardFail, h1, h2] <;>
    (try split_ifs) <;> simp_all

/-- A positive-size read on a usable stream with no hard read failure
returns `gcount()` of the native read, with no error code written. -/
theorem reader_ok_value (s : Ios) (size : Int) (hs : 0 < size)
    (hb : s.badbit = false) (hh : readHardFail s = false) :
    (stream_reader (some s) true size).ret = ((s.read size.toNat).gcountv : Int) ∧
    (stream_reader (some s) true size).errnoSet = none := by
  have h1 : ¬ size < 0 := by omega
  have h2 : ¬ size = 0 := by omega
  rcases s with ⟨eo, fa, ba, gp, pp, ln, gc, hw⟩
  cases eo <;> cases fa <;> cases ba <;> cases hw <;>
    simp [readHardFail, Ios.good] at hb hh <;>
    simp [stream_reader, is_stream_usable, Ios.bad, Ios.read, Ios.good, Ios.fail,
      Ios.eof, h1, h2] <;>
    (try split_ifs) <;> simp_all

/-- Writing through `stream_op` on a stream with a pending failure flag
reports EINVAL after the no-op native write. -/
theorem writer_pending_fail (s : Ios) (buffer : Bool) (size : Int)
    (hb : s.badbit = false) (hf : s.failbit = true) :
    stream_writer (some s) buffer size = ⟨-1, some .InvalidArgument, some s, true⟩ := by
  rcases s with ⟨eo, fa, ba, gp, pp, ln, gc, hw⟩
  simp_all [stream_writer, stream_op, is_stream_usable, Ios.bad, Ios.write, Ios.good,
    Ios.fail]

/-- Writing through `stream_op` on a stream with no failure flags returns
the requested size with no error code, whatever the buffer argument. -/
theorem writer_ok (s : Ios) (buffer : Bool) (size : Int)
    (hb : s.badbit = false) (hf : s.failbit = false) :
    (stream_writer (some s) buffer size).ret = size ∧
    (stream_writer (some s) buffer size).errnoSet = none ∧
    (stream_writer (some s) buffer size).touched = true := by
  rcases s with ⟨eo, fa, ba, gp, pp, ln, gc, hw⟩
  cases eo <;>
    simp_all [stream_writer, stream_op, is_stream_usable, Ios.bad, Ios.write, Ios.good,
      Ios.fail]

/-- C1: at the consuming call sites `Builder::with_definition`,
`Builder::with_archive` and the Reader attach-stream step, the wrapper's
handle field is already null at the moment a null foreign result makes the
wrapper throw; but at `ContextBuilder::create_context` the field still holds
the handle consumed by `c2pa_context_builder_build` when the failure is
thrown, so the destructor releases the consumed handle a second time.  This
theorem evaluates the four embedded sites at a failing foreign call. -/
theorem create_context_leaves_consumed_handle :
    (ContextBuilder.create_context_call (some 5) none).threw = true ∧
    (ContextBuilder.create_context_call (some 5) none).field = some 5 ∧
    (ContextBuilder.create_context_call (some 5) none).destructorDoubleFree = true ∧
    (Builder.with_definition_call (some 5) none).field = none ∧
    (Builder.with_archive_call (some 5) none).field = none ∧
    (Reader.with_stream_call (some 5) none).field = none := by
  exact ⟨rfl, rfl, rfl, rfl, rfl, rfl⟩

/-- C2 (counterexample): `Builder::set_remote_url` invoked on a moved-from
`Builder` (null handle) neither raises before the foreign call nor avoids
it: the null handle is forwarded into `c2pa_builder_set_remote_url` and, for
a non-negative foreign status, no exception is raised at all. -/
theorem moved_from_builder_forwards_null :
    (Builder.moveFrom (some 7)).2 = none ∧
    Builder.set_remote_url (Builder.moveFrom (some 7)).2 0 = (.ok (), [none]) := by
  exact ⟨rfl, rfl⟩

/-- C2 (amended): after a move the source holds a null handle; `Settings`,
`Context` and `ContextBuilder` expose `is_valid()` returning false, and
their mutating operations on a moved-from object raise locally without any
foreign call; but `Reader`, `Builder` and `Signer` operations perform no
such check and forward the (null) handle straight into the foreign call. -/
theorem moved_from_discipline :
    (∀ a : Option Nat, (Settings.moveFrom a).2 = none ∧
       Settings.is_valid (Settings.moveFrom a).2 = false) ∧
    (∀ st : Int, Settings.set none st = (.error (.c2paLocal msgSettingsInvalid), [])) ∧
    (∀ st : Int, Settings.update none st = (.error (.c2paLocal msgSettingsInvalid), [])) ∧
    (∀ (sv : Bool) (st : Int), ContextBuilder.with_settings none sv st =
       (.error (.c2paLocal msgBuilderMoved), [])) ∧
    (∀ fr : Option Nat, ContextBuilder.create_context_call none fr = ⟨true, none, none⟩) ∧
    (∀ a : Option Nat, Context.is_valid (Context.moveFrom a).2 = false) ∧
    (∀ a : Option Nat, ContextBuilder.is_valid (ContextBuilder.moveFrom a).2 = false) ∧
    (∀ st : Int, (Builder.set_remote_url none st).2 = [none]) ∧
    (∀ st : Int, (Builder.set_remote_url none st).1 =
       if st < 0 then .error .c2paForeign else .ok ()) ∧
    (∀ fr : Bool, Reader.is_embedded none fr = (fr, [none])) ∧
    (∀ fr : Nat, Signer.reserve_size none fr = (fr, [none])) := by
  exact ⟨fun a => ⟨rfl, rfl⟩, fun st => rfl, fun st => rfl, fun sv st => rfl,
    fun fr => rfl, fun a => rfl, fun a => rfl, fun st => rfl, fun st => rfl,
    fun fr => rfl, fun fr => rfl⟩

/-- C3: the read-only adapter's write and flush callbacks return the
sentinel -1 with the invalid-argument error code for every argument
combination (null or non-null buffer, any size including negative and
zero), leave the wrapped stream untouched and unchanged, and invoke no
native stream operation. -/
theorem readonly_adapter_write_flush_rejected :
    ∀ (context : Option Ios) (buffer : Bool) (size : Int),
      CppIStream.writer context buffer size = ⟨-1, some .InvalidArgument, context, false⟩ ∧
      CppIStream.flusher context = ⟨-1, some .InvalidArgument, context, false⟩ :=
  fun context buffer size => ⟨rfl, rfl⟩

/-- C4 (counterexample): a zero-size read on a stream whose `badbit` is set
returns 0 with no error code — the claimed biconditional ("returns -1 with
an error code exactly when ... the stream is in a bad/unusable state")
fails at this input, because the zero-size early return precedes the
usability check. -/
theorem zero_size_read_on_bad_stream :
    (⟨false, false, true, 0, 0, 10, 0, false⟩ : Ios).badbit = true ∧
    stream_reader (some ⟨false, false, true, 0, 0, 10, 0, false⟩) true 0 =
      ⟨0, none, some ⟨false, false, true, 0, 0, 10, 0, false⟩, false⟩ := by
  exact ⟨rfl, rfl⟩

/-- C4 (amended): the read callback returns -1 with an error code exactly
when the context or buffer is null, the size is negative, or the size is
positive and either the stream is bad or the attempted read hard-fails
without reaching end-of-file; a zero-size request returns 0 immediately
without touching the stream (even when the stream is bad); end-of-stream is
not an error and the successful return value is `gcount()`, the number of
bytes actually read. -/
theorem reader_error_characterization :
    (∀ (buffer : Bool) (size : Int),
       stream_reader none buffer size = ⟨-1, some .InvalidArgument, none, false⟩) ∧
    (∀ (s : Ios) (size : Int),
       stream_reader (some s) false size = ⟨-1, some .InvalidArgument, some s, false⟩) ∧
    (∀ (s : Ios) (size : Int), size < 0 →
       stream_reader (some s) true size = ⟨-1, some .InvalidArgument, some s, false⟩) ∧
    (∀ s : Ios, stream_reader (some s) true 0 = ⟨0, none, some s, false⟩) ∧
    (∀ (s : Ios) (size : Int), 0 < size →
       ((stream_reader (some s) true size).ret = -1 ↔
         s.badbit = true ∨ readHardFail s = true)) ∧
    (∀ (s : Ios) (size : Int), 0 < size → s.badbit = false → readHardFail s = false →
       (stream_reader (some s) true size).ret = ((s.read size.toNat).gcountv : Int) ∧
       (stream_reader (some s) true size).errnoSet = none) := by
  refine ⟨fun buffer size => rfl, fun s size => rfl, ?_, fun s => rfl,
    fun s size hs => reader_ret_neg_iff s size hs,
    fun s size hs hb hh => reader_ok_value s size hs hb hh⟩
  intro s size hneg
  simp [stream_reader, hneg]

/-- C4 (witness): the amended characterization applied at two concrete
streams — a good stream whose streambuf hard-fails, and a plain good stream
read past end-of-file. -/
theorem reader_error_characterization_witness :
    ((stream_reader (some ⟨false, false, false, 0, 0, 10, 0, true⟩) true 4).ret = -1 ↔
      (⟨false, false, false, 0, 0, 10, 0, true⟩ : Ios).badbit = true ∨
      readHardFail ⟨false, false, false, 0, 0, 10, 0, true⟩ = true) ∧
    ((stream_reader (some ⟨false, false, false, 0, 0, 10, 0, false⟩) true 4).ret =
       ((Ios.read ⟨false, false, false, 0, 0, 10, 0, false⟩ ((4 : Int)).toNat).gcountv : Int) ∧
     (stream_reader (some ⟨false, false, false, 0, 0, 10, 0, false⟩) true 4).errnoSet = none) :=
  ⟨reader_error_characterization.2.2.2.2.1 ⟨false, false, false, 0, 0, 10, 0, true⟩ 4
     (by decide),
   reader_error_characterization.2.2.2.2.2 ⟨false, false, false, 0, 0, 10, 0, false⟩ 4
     (by decide) rfl rfl⟩

/-- C5 (counterexample): a write with a null buffer and positive size on a
good stream is not rejected: the native write is performed and the callback
returns the size with no error code, contrary to the claimed -1 with an
error code. -/
theorem null_buffer_write_performed :
    (stream_writer (some ⟨false, false, false, 0, 0, 0, 0, false⟩) false 3).ret = 3 ∧
    (stream_writer (some ⟨false, false, false, 0, 0, 0, 0, false⟩) false 3).errnoSet = none ∧
    (stream_writer (some ⟨false, false, false, 0, 0, 0, 0, false⟩) false 3).touched = true := by
  decide

/-- C5 (amended): the write callback validates only the context: a null
context or bad stream is EIO without touching the stream, a stream whose
failure flag is set reports EINVAL after the (no-op) native write, and
otherwise the native write is invoked and the requested size returned —
with no null-buffer or negative-size validation at all: the result is
independent of the buffer argument. -/
theorem writer_error_characterization :
    (∀ (buffer : Bool) (size : Int),
       stream_writer none buffer size = ⟨-1, some .IoError, none, false⟩) ∧
    (∀ (s : Ios) (buffer : Bool) (size : Int), s.badbit = true →
       stream_writer (some s) buffer size = ⟨-1, some .IoError, some s, false⟩) ∧
    (∀ (s : Ios) (buffer : Bool) (size : Int), s.badbit = false → s.failbit = true →
       stream_writer (some s) buffer size = ⟨-1, some .InvalidArgument, some s, true⟩) ∧
    (∀ (s : Ios) (buffer : Bool) (size : Int), s.badbit = false → s.failbit = false →
       (stream_writer (some s) buffer size).ret = size ∧
       (stream_writer (some s) buffer size).errnoSet = none ∧
       (stream_writer (some s) buffer size).touched = true) ∧
    (∀ (context : Option Ios) (size : Int),
       stream_writer context true size = stream_writer context false size) := by
  refine ⟨fun buffer size => rfl, ?_,
    fun s buffer size hb hf => writer_pending_fail s buffer size hb hf,
    fun s buffer size hb hf => writer_ok s buffer size hb hf,
    fun context size => rfl⟩
  intro s buffer size hb
  simp [stream_writer, stream_op, is_stream_usable, Ios.bad, hb]

/-- C5 (witness): the amended characterization applied at concrete streams:
a pending-failure stream, a good stream written with a null buffer, and a
bad stream. -/
theorem writer_error_characterization_witness :
    stream_writer (some ⟨false, true, false, 0, 0, 0, 0, false⟩) true 7 =
      ⟨-1, some .InvalidArgument, some ⟨false, true, false, 0, 0, 0, 0, false⟩, true⟩ ∧
    ((stream_writer (some ⟨false, false, false, 0, 2, 2, 0, false⟩) false 7).ret = 7 ∧
     (stream_writer (some ⟨false, false, false, 0, 2, 2, 0, false⟩) false 7).errnoSet = none ∧
     (stream_writer (some ⟨false, false, false, 0, 2, 2, 0, false⟩) false 7).touched = true) ∧
    stream_writer (some ⟨true, false, true, 0, 0, 0, 0, false⟩) false 1 =
      ⟨-1, some .IoError, some ⟨true, false, true, 0, 0, 0, 0, false⟩, false⟩ :=
  ⟨writer_error_characterization.2.2.1 ⟨false, true, false, 0, 0, 0, 0, false⟩ true 7 rfl rfl,
   writer_error_characterization.2.2.2.1 ⟨false, false, false, 0, 2, 2, 0, false⟩ false 7 rfl rfl,
   writer_error_characterization.2.1 ⟨true, false, true, 0, 0, 0, 0, false⟩ false 1 rfl⟩

/-- C6: for every wrapped stream type, seeking to a negative absolute
offset from `Start` on a usable stream returns -1 with the invalid-argument
code (not the I/O-error code); seeking a stream whose `badbit` is set
returns -1 with the I/O-error code; and a successful seek returns the new
absolute position. -/
theorem seeker_contract :
    (∀ (k : StreamKind) (s : Ios) (off : Int), s.badbit = false → off < 0 →
       (stream_seeker k (some s) off .Start).ret = -1 ∧
       (stream_seeker k (some s) off .Start).errnoSet = some .InvalidArgument) ∧
    (∀ (k : StreamKind) (s : Ios) (off : Int) (w : C2paSeekMode), s.badbit = true →
       stream_seeker k (some s) off w = ⟨-1, some .IoError, some s, false⟩) ∧
    (∀ (k : StreamKind) (s : Ios) (off : Int) (w : C2paSeekMode), s.badbit = false →
       seekTargetOk k s off (whence_to_seekdir w) = true →
       (stream_seeker k (some s) off w).ret = seekNewPos k s off (whence_to_seekdir w) ∧
       (stream_seeker k (some s) off w).errnoSet = none) :=
  ⟨fun k s off hb hoff => seeker_neg_start k s off hb hoff,
   fun k s off w hb => seeker_bad k s off w hb,
   fun k s off w hb hok => seeker_success k s off w hb hok⟩

/-- C6 (witness): the seek contract applied at concrete streams for each of
its three parts. -/
theorem seeker_contract_witness :
    ((stream_seeker .ist (some ⟨false, false, false, 0, 0, 10, 0, false⟩) (-4) .Start).ret = -1 ∧
     (stream_seeker .ist (some ⟨false, false, false, 0, 0, 10, 0, false⟩) (-4) .Start).errnoSet =
       some .InvalidArgument) ∧
    stream_seeker .ost (some ⟨false, false, true, 0, 5, 10, 0, false⟩) 3 .Current =
      ⟨-1, some .IoError, some ⟨false, false, true, 0, 5, 10, 0, false⟩, false⟩ ∧
    ((stream_seeker .iost (some ⟨false, false, false, 2, 3, 10, 0, false⟩) 4 .End).ret =
       seekNewPos .iost ⟨false, false, false, 2, 3, 10, 0, false⟩ 4 (whence_to_seekdir .End) ∧
     (stream_seeker .iost (some ⟨false, false, false, 2, 3, 10, 0, false⟩) 4 .End).errnoSet =
       none) :=
  ⟨seeker_contract.1 .ist ⟨false, false, false, 0, 0, 10, 0, false⟩ (-4) rfl (by decide),
   seeker_contract.2.1 .ost ⟨false, false, true, 0, 5, 10, 0, false⟩ 3 .Current rfl,
   seeker_contract.2.2 .iost ⟨false, false, false, 2, 3, 10, 0, false⟩ 4 .End rfl (by decide)⟩

/-- C7: the signer trampoline returns -1 with the invalid-argument code
when the input or output pointer is null; catches any exception escaping
the user callback and maps it to the generic -1 (with no error code
written), never propagating it; returns -1 with the no-buffer-space code
when the returned signature exceeds the declared maximum; and otherwise
copies the signature out and returns its length. -/
theorem signer_trampoline_contract :
    (∀ (cb : List Nat → Except String (List Nat)) (sigbuf : Bool) (m : Nat),
       signer_passthrough cb none sigbuf m = ⟨-1, some .InvalidArgument, none⟩) ∧
    (∀ (cb : List Nat → Except String (List Nat)) (d : List Nat) (m : Nat),
       signer_passthrough cb (some d) false m = ⟨-1, some .InvalidArgument, none⟩) ∧
    (∀ (cb : List Nat → Except String (List Nat)) (d : List Nat) (m : Nat) (e : String),
       cb d = .error e →
       signer_passthrough cb (some d) true m = ⟨-1, none, none⟩) ∧
    (∀ (cb : List Nat → Except String (List Nat)) (d : List Nat) (m : Nat) (sig : List Nat),
       cb d = .ok sig → sig.length > m →
       signer_passthrough cb (some d) true m = ⟨-1, some .NoBufferSpace, none⟩) ∧
    (∀ (cb : List Nat → Except String (List Nat)) (d : List Nat) (m : Nat) (sig : List Nat),
       cb d = .ok sig → sig.length ≤ m →
       signer_passthrough cb (some d) true m = ⟨(sig.length : Int), none, some sig⟩) := by
  refine ⟨fun cb sigbuf m => rfl, fun cb d m => rfl, ?_, ?_, ?_⟩
  · intro cb d m e h
    simp [signer_passthrough, h]
  · intro cb d m sig h hgt
    simp [signer_passthrough, h, hgt]
  · intro cb d m sig h hle
    simp [signer_passthrough, h, Nat.not_lt.2 hle]

/-- C7 (witness): the trampoline contract applied to a throwing callback
and to the identity callback at small and large maxima. -/
theorem signer_trampoline_contract_witness :
    signer_passthrough (fun _ => .error msgBoom) (some [1, 2]) true 5 = ⟨-1, none, none⟩ ∧
    signer_passthrough (fun d => .ok d) (some [1, 2]) true 1 =
      ⟨-1, some .NoBufferSpace, none⟩ ∧
    signer_passthrough (fun d => .ok d) (some [1, 2]) true 2 = ⟨2, none, some [1, 2]⟩ :=
  ⟨signer_trampoline_contract.2.2.1 (fun _ => .error msgBoom) [1, 2] 5 msgBoom rfl,
   signer_trampoline_contract.2.2.2.1 (fun d => .ok d) [1, 2] 1 [1, 2] rfl (by decide),
   signer_trampoline_contract.2.2.2.2 (fun d => .ok d) [1, 2] 2 [1, 2] rfl (by decide)⟩

/-- C8: the two `Signer` constructors store a null foreign factory result
without raising, so a `Signer` holding a null handle is successfully
constructed — while the `Settings`, `Context`, `ContextBuilder` and
`CppIStream` constructors raise on a null factory result as the claim
requires.  Evaluated at the failing (null) factory result. -/
theorem signer_ctor_null_unchecked :
    Signer.ctor_callback none = .ok none ∧
    Signer.ctor_info none = .ok none ∧
    Settings.ctor_default none = .error (.c2paLocal msgSettingsCreate) ∧
    Context.ctor_default none = .error (.c2paLocal msgContextCreate) ∧
    ContextBuilder.ctor none = .error (.c2paLocal msgContextBuilderCreate) ∧
    CppIStream.ctor none = .error (.c2paLocal msgIStreamCreate) := by
  exact ⟨rfl, rfl, rfl, rfl, rfl, rfl⟩

/-- C9 (counterexample): the path overload of `Builder::sign` with an
unopenable destination raises `std::runtime_error`, and with a failing
directory-preparation step raises `std::filesystem::filesystem_error` —
neither is the wrapper's `C2paException` type, refuting the claim that
every failure of a public operation surfaces as the one exception type. -/
theorem sign_path_throws_runtime_error :
    Builder.sign_path true true false (some []) = .error (.runtimeError msgDestOpen) ∧
    CErr.isC2paException (.runtimeError msgDestOpen) = false ∧
    Builder.sign_path true false true (some []) = .error (.filesystemError msgCreateDirs) ∧
    CErr.isC2paException (.filesystemError msgCreateDirs) = false := by
  exact ⟨rfl, rfl, rfl, rfl⟩

/-- C9 (amended): failures surface as `C2paException` except exactly three
local precondition failures: in the path overload of `Builder::sign`, the
directory-preparation step (`std::filesystem::exists` /
`std::filesystem::create_directories`) raises
`std::filesystem::filesystem_error` and the destination-open failure raises
`std::runtime_error`; and the source-file-open failure of the `Reader` path
constructor raises `std::system_error`. -/
theorem exception_type_characterization :
    (∀ (sr : Option (List Nat)) (d : Bool),
       Builder.sign_path true false d sr = .error (.filesystemError msgCreateDirs)) ∧
    (∀ sr : Option (List Nat),
       Builder.sign_path true true false sr = .error (.runtimeError msgDestOpen)) ∧
    (∀ (so dp d : Bool) (sr : Option (List Nat)) (e : CErr),
       Builder.sign_path so dp d sr = .error e →
       (e.isC2paException = false ↔ so = true ∧ (dp = false ∨ d = false))) ∧
    (∀ (cv : Bool) (fr : Option Nat) (fo : Bool) (ws : Option Nat) (e : CErr),
       Reader.ctor_path cv fr fo ws = .error e →
       (e.isC2paException = false ↔ cv = true ∧ fr.isSome = true ∧ fo = false)) := by
  refine ⟨fun sr d => rfl, fun sr => rfl, ?_, ?_⟩
  · intro so dp d sr e h
    cases so <;> cases dp <;> cases d <;> cases sr <;> simp [Builder.sign_path] at h <;>
      subst h <;> simp [CErr.isC2paException]
  · intro cv fr fo ws e h
    cases cv <;> cases fr <;> cases fo <;> cases ws <;> simp [Reader.ctor_path] at h <;>
      subst h <;> simp [CErr.isC2paException]

/-- C9 (witness): the characterization applied at a failing
directory-preparation step and a failing destination open of
`Builder::sign`, and a failing source open of the `Reader` path
constructor. -/
theorem exception_type_characterization_witness :
    Builder.sign_path true false true none = .error (.filesystemError msgCreateDirs) ∧
    Builder.sign_path true true false none = .error (.runtimeError msgDestOpen) ∧
    ((CErr.runtimeError msgDestOpen).isC2paException = false ↔
      true = true ∧ (true = false ∨ false = false)) ∧
    ((CErr.systemError msgFileOpen).isC2paException = false ↔
      true = true ∧ (some 3 : Option Nat).isSome = true ∧ false = false) :=
  ⟨exception_type_characterization.1 none true,
   exception_type_characterization.2.1 none,
   exception_type_characterization.2.2.1 true true false none
     (.runtimeError msgDestOpen) rfl,
   exception_type_characterization.2.2.2 true (some 3) false (some 4)
     (.systemError msgFileOpen) rfl⟩

/-- C10: for every wrapped stream type and whence mode, the seeker on a
usable stream behaves exactly as on the same stream with its flags already
cleared (the flags are cleared unconditionally before the native seek); in
particular a seek issued after a prior soft failure (eof and fail flags
set, bad not set) succeeds and returns the new position whenever the
requested target position is valid. -/
theorem seeker_clears_flags :
    (∀ (k : StreamKind) (s : Ios) (off : Int) (w : C2paSeekMode), s.badbit = false →
       stream_seeker k (some s) off w = stream_seeker k (some s.clear) off w) ∧
    (∀ (k : StreamKind) (s : Ios) (off : Int) (w : C2paSeekMode),
       s.badbit = false → s.eofbit = true → s.failbit = true →
       seekTargetOk k s off (whence_to_seekdir w) = true →
       (stream_seeker k (some s) off w).ret = seekNewPos k s off (whence_to_seekdir w) ∧
       (stream_seeker k (some s) off w).errnoSet = none) :=
  ⟨fun k s off w hb => seeker_clear_equiv k s off w hb,
   fun k s off w hb _ _ hok => seeker_success k s off w hb hok⟩

/-- C10 (witness): the clearing behaviour applied at a concrete stream with
both soft-failure flags set after a short read. -/
theorem seeker_clears_flags_witness :
    stream_seeker .ist (some ⟨true, true, false, 5, 0, 10, 0, false⟩) 0 .Start =
      stream_seeker .ist (some (Ios.clear ⟨true, true, false, 5, 0, 10, 0, false⟩)) 0 .Start ∧
    ((stream_seeker .ist (some ⟨true, true, false, 5, 0, 10, 0, false⟩) 0 .Start).ret =
       seekNewPos .ist ⟨true, true, false, 5, 0, 10, 0, false⟩ 0 (whence_to_seekdir .Start) ∧
     (stream_seeker .ist (some ⟨true, true, false, 5, 0, 10, 0, false⟩) 0 .Start).errnoSet =
       none) :=
  ⟨seeker_clears_flags.1 .ist ⟨true, true, false, 5, 0, 10, 0, false⟩ 0 .Start rfl,
   seeker_clears_flags.2 .ist ⟨true, true, false, 5, 0, 10, 0, false⟩ 0 .Start rfl rfl rfl
     (by decide)⟩

end C2paCpp
